import Mathlib

/-!
Shallow embedding of the Lambda request handler in
`python/apigw-http-api-lambda-dynamodb-python-cdk/lambda/apigw-handler/index.py`,
together with theorems settling the specification claims about it.

The handler's own control flow (the branch on `event["body"]`, the three
field extractions with `str()` coercion, the single `put_item` call, the
structured log events, the top-level try/except that logs and re-raises)
is embedded faithfully.  External collaborators are passed in explicitly:

* `jsonLoads` models Python's `json.loads` (standard library);
* `uuid4` is the token `str(uuid.uuid4())` returns for this invocation;
* `storeFault` injects an optional service-side failure of the DynamoDB
  `put_item` call (the store is a managed collaborator);
* `now` stands for `datetime.utcnow().isoformat()`;
* the X-Ray tracing calls (`patch_all`, `put_annotation`, `put_metadata`,
  `in_subsegment`) are pure observability hooks: `put_annotation` ignores
  unsupported value types with a warning and never raises, so they have no
  effect on any state the claims mention and are not represented.
-/

namespace ApigwHandler

/-- Python values produced by `json.loads`: JSON null, booleans, numbers
(integers, and floats carried by their Python `repr` string, since `str` of
a parsed float is its shortest round-trip representation), strings, arrays
and objects.  Objects keep their key/value pairs in order; Python's dict
semantics (last duplicate key wins) are applied at lookup time. -/
inductive JValue where
  | jnull
  | jbool (b : Bool)
  | jint (n : Int)
  | jfloat (r : String)
  | jstr (s : String)
  | jarr (xs : List JValue)
  | jobj (kvs : List (String × JValue))
deriving Repr

/-- Python `repr` of a string: quoted with single quotes (claims exercise
only strings without quote characters, for which this is exact). -/
def pyReprStr (s : String) : String := "\x27" ++ s ++ "\x27"

mutual
/-- Python `repr` of a JSON-derived value. -/
def pyRepr : JValue → String
  | .jnull => "None"
  | .jbool true => "True"
  | .jbool false => "False"
  | .jint n => toString n
  | .jfloat r => r
  | .jstr s => pyReprStr s
  | .jarr xs => "[" ++ pyReprList xs ++ "]"
  | .jobj kvs => "\x7b" ++ pyReprObj kvs ++ "\x7d"

/-- Comma-separated `repr` of list elements. -/
def pyReprList : List JValue → String
  | [] => ""
  | [x] => pyRepr x
  | x :: xs => pyRepr x ++ ", " ++ pyReprList xs

/-- Comma-separated `repr` of dict entries. -/
def pyReprObj : List (String × JValue) → String
  | [] => ""
  | [(k, v)] => pyReprStr k ++ ": " ++ pyRepr v
  | (k, v) :: xs => pyReprStr k ++ ": " ++ pyRepr v ++ ", " ++ pyReprObj xs
end

/-- Python `str` of a JSON-derived value: identical to `repr` except on
strings, where `str` is the identity. -/
def pyStr : JValue → String
  | .jstr s => s
  | v => pyRepr v

/-- Python exceptions the embedded handler can raise or receive. -/
inductive PyExc where
  | keyError (k : String)
  | jsonDecodeError (m : String)
  | typeError (m : String)
  | paramValidationError (m : String)
  | clientError (m : String)
deriving Repr, DecidableEq

/-- Python `type(e).__name__`. -/
def PyExc.typeName : PyExc → String
  | .keyError _ => "KeyError"
  | .jsonDecodeError _ => "JSONDecodeError"
  | .typeError _ => "TypeError"
  | .paramValidationError _ => "ParamValidationError"
  | .clientError _ => "ClientError"

/-- Python `str(e)`; for `KeyError` this is the `repr` of the missing key. -/
def PyExc.message : PyExc → String
  | .keyError k => "\x27" ++ k ++ "\x27"
  | .jsonDecodeError m => m
  | .typeError m => m
  | .paramValidationError m => m
  | .clientError m => m

/-- Lookup in a JSON object's pair list with Python dict semantics: the
last binding of a duplicated key wins. -/
def dictGet (kvs : List (String × JValue)) (k : String) : Option JValue :=
  match kvs with
  | [] => none
  | (k2, v) :: rest =>
    match dictGet rest k with
    | some w => some w
    | none => if k2 = k then some v else none

/-- Python type name of a JSON-derived value, as used in `TypeError`
messages. -/
def pyTypeName : JValue → String
  | .jnull => "NoneType"
  | .jbool _ => "bool"
  | .jint _ => "int"
  | .jfloat _ => "float"
  | .jstr _ => "str"
  | .jarr _ => "list"
  | .jobj _ => "dict"

/-- Python subscript `v[k]` with a string key: succeeds on dicts holding
the key, raises `KeyError` on dicts missing it, `TypeError` otherwise. -/
def pySubscript (v : JValue) (k : String) : Except PyExc JValue :=
  match v with
  | .jobj kvs =>
    match dictGet kvs k with
    | some w => .ok w
    | none => .error (.keyError k)
  | .jarr _ => .error (.typeError "list indices must be integers or slices, not str")
  | .jstr _ => .error (.typeError "string indices must be integers")
  | other => .error (.typeError ("\x27" ++ pyTypeName other ++ "\x27 object is not subscriptable"))

/-- The value of the `"body"` key of the invocation event: the key can be
absent from the event mapping, present with Python `None`, or present with
a string. -/
inductive BodyField where
  | absent
  | pyNone
  | str (s : String)
deriving Repr, DecidableEq

/-- Python truthiness of a present body value: `None` and the empty string
are falsy, a non-empty string is truthy. -/
def BodyField.truthy : BodyField → Bool
  | .absent => false
  | .pyNone => false
  | .str s => !(s = "")

/-- The `"identity"` object nested in the request context, with its
optional `sourceIp` and `userAgent` keys. -/
structure Identity where
  sourceIp : Option String
  userAgent : Option String
deriving Repr, DecidableEq

/-- The `"requestContext"` object of the event, with its optional
`identity` key. -/
structure RequestContext where
  identity : Option Identity
deriving Repr, DecidableEq

/-- The invocation event: an optional request-context mapping and the
`"body"` field. -/
structure Event where
  requestContext : Option RequestContext
  body : BodyField
deriving Repr, DecidableEq

/-- The Lambda invocation context object. -/
structure Context where
  aws_request_id : String
  function_name : String
deriving Repr, DecidableEq

/-- The chain `event.get("requestContext", \x7b\x7d).get("identity",
\x7b\x7d).get("sourceIp", "unknown")`. -/
def sourceIpOf (event : Event) : String :=
  match event.requestContext with
  | none => "unknown"
  | some rc =>
    match rc.identity with
    | none => "unknown"
    | some idy => idy.sourceIp.getD "unknown"

/-- The chain extracting `userAgent`, defaulting to `"unknown"`. -/
def userAgentOf (event : Event) : String :=
  match event.requestContext with
  | none => "unknown"
  | some rc =>
    match rc.identity with
    | none => "unknown"
    | some idy => idy.userAgent.getD "unknown"

/-- DynamoDB attribute values used by the handler: `N` (numeric, carried
as its string form) and `S` (string). -/
inductive AttrValue where
  | N (s : String)
  | S (s : String)
deriving Repr, DecidableEq

/-- A DynamoDB item as passed to `put_item`: attribute name/value pairs. -/
abbrev DDBItem := List (String × AttrValue)

/-- The structured JSON log events the handler emits, with the fields each
carries in the source. -/
inductive LogEvent where
  | apiRequestReceived (source_ip user_agent request_id : String)
      (functionName : String) (table_name : Option String) (timestamp : String)
  | dataProcessingStart (has_payload default_processing : Bool)
      (request_id source_ip timestamp : String)
  | dynamodbWriteSuccess (table_name : Option String) (item_id : String)
      (default_processing : Bool) (request_id source_ip timestamp : String)
  | apiRequestCompleted (request_id source_ip timestamp : String)
  | apiRequestError (error_type error_message request_id source_ip : String)
      (table_name : Option String) (timestamp : String)
deriving Repr, DecidableEq

/-- The `botocore` parameter-validation message for `TableName=None`. -/
def pvMsg : String :=
  "Invalid type for parameter TableName, value: None, type: <class \x27NoneType\x27>, valid types: <class \x27str\x27>"

/-- The `dynamodb_client.put_item` call: with `TableName=None` the SDK
raises `ParamValidationError` client-side before anything reaches the
store; otherwise the call succeeds unless a service fault is injected. -/
def put_item (tableName : Option String) (item : DDBItem)
    (storeFault : Option PyExc) : Except PyExc Unit :=
  match tableName with
  | none => .error (.paramValidationError pvMsg)
  | some _ =>
    match storeFault with
    | some e => .error e
    | none => .ok ()

/-- An HTTP response as returned by the handler. -/
structure HttpResponse where
  statusCode : Nat
  headers : List (String × String)
  body : String
deriving Repr, DecidableEq

/-- Python `json.dumps` of an object whose values are plain strings
without characters needing escapes (the only shape the handler dumps for
its response body). -/
def jsonDumpsStrObj (kvs : List (String × String)) : String :=
  "\x7b" ++ String.intercalate ", " (kvs.map (fun kv => "\"" ++ kv.1 ++ "\": \"" ++ kv.2 ++ "\"")) ++ "\x7d"

instance {ε α : Type} [DecidableEq ε] [DecidableEq α] : DecidableEq (Except ε α) := fun x y =>
  match x, y with
  | .ok a, .ok b =>
    if h : a = b then isTrue (by rw [h]) else isFalse (by simp [h])
  | .error a, .error b =>
    if h : a = b then isTrue (by rw [h]) else isFalse (by simp [h])
  | .ok _, .error _ => isFalse (by simp)
  | .error _, .ok _ => isFalse (by simp)

/-- Result of the `try` block's body: the log events it emitted, every
`put_item` call it made (the attempts), the calls that succeeded (the
writes), and whether it completed or raised. -/
structure TryResult where
  logs : List LogEvent
  putAttempts : List (Option String × DDBItem)
  writes : List (Option String × DDBItem)
  res : Except PyExc Unit
deriving Repr, DecidableEq

/-- The body of the handler's `try` block (source lines 65-154 before the
final return): branch on the truthiness of `event["body"]`, with a
`KeyError` when the key is absent; parse and extract on the payload path;
write the fixed default record with a fresh uuid otherwise. -/
def tryBody (table : Option String) (jsonLoads : String → Except PyExc JValue)
    (uuid4 : String) (storeFault : Option PyExc) (now : String)
    (event : Event) (ctx : Context) : TryResult :=
  match event.body with
  | .absent => ⟨[], [], [], .error (.keyError "body")⟩
  | .pyNone => defaultPath table uuid4 storeFault now event ctx
  | .str s =>
    if s = "" then defaultPath table uuid4 storeFault now event ctx
    else payloadPath table jsonLoads storeFault now event ctx s
where
  /-- Source lines 67-100: parse the body, extract and `str`-coerce the
  three fields, write the record. -/
  payloadPath (table : Option String) (jsonLoads : String → Except PyExc JValue)
      (storeFault : Option PyExc) (now : String) (event : Event) (ctx : Context)
      (s : String) : TryResult :=
    match jsonLoads s with
    | .error e => ⟨[], [], [], .error e⟩
    | .ok item =>
      let log1 : LogEvent :=
        .dataProcessingStart true false ctx.aws_request_id (sourceIpOf event) now
      match pySubscript item "year" with
      | .error e => ⟨[log1], [], [], .error e⟩
      | .ok vy =>
        match pySubscript item "title" with
        | .error e => ⟨[log1], [], [], .error e⟩
        | .ok vt =>
          match pySubscript item "id" with
          | .error e => ⟨[log1], [], [], .error e⟩
          | .ok vi =>
            let item2 : DDBItem :=
              [("year", .N (pyStr vy)), ("title", .S (pyStr vt)), ("id", .S (pyStr vi))]
            match put_item table item2 storeFault with
            | .error e => ⟨[log1], [(table, item2)], [], .error e⟩
            | .ok _ =>
              let log2 : LogEvent :=
                .dynamodbWriteSuccess table (pyStr vi) false ctx.aws_request_id
                  (sourceIpOf event) now
              ⟨[log1, log2], [(table, item2)], [(table, item2)], .ok ()⟩
  /-- Source lines 102-138: generate a uuid and write the fixed default
  record. -/
  defaultPath (table : Option String) (uuid4 : String) (storeFault : Option PyExc)
      (now : String) (event : Event) (ctx : Context) : TryResult :=
    let default_id := uuid4
    let log1 : LogEvent :=
      .dataProcessingStart false true ctx.aws_request_id (sourceIpOf event) now
    let item2 : DDBItem :=
      [("year", .N "2012"), ("title", .S "The Amazing Spider-Man 2"), ("id", .S default_id)]
    match put_item table item2 storeFault with
    | .error e => ⟨[log1], [(table, item2)], [], .error e⟩
    | .ok _ =>
      let log2 : LogEvent :=
        .dynamodbWriteSuccess table default_id true ctx.aws_request_id
          (sourceIpOf event) now
      ⟨[log1, log2], [(table, item2)], [(table, item2)], .ok ()⟩

/-- The full result of one invocation: all log events in order, the
`put_item` attempts, the successful writes, and the returned response or
the propagated exception. -/
structure HandlerResult where
  logs : List LogEvent
  putAttempts : List (Option String × DDBItem)
  writes : List (Option String × DDBItem)
  outcome : Except PyExc HttpResponse
deriving Repr, DecidableEq

/-- The success response of source lines 149-154. -/
def successResponse : HttpResponse :=
  { statusCode := 200
    headers := [("Content-Type", "application/json")]
    body := jsonDumpsStrObj [("message", "Successfully inserted data!")] }

/-- The handler, source lines 35-169: read `TABLE_NAME` from the
environment with `os.environ.get` (no presence check), extract the request
metadata with defaulting `get` chains, log `api_request_received`, run the
try body, then either log `api_request_completed` and return the 200
response, or log `api_request_error` and re-raise the caught exception. -/
def handler (tableEnv : Option String) (jsonLoads : String → Except PyExc JValue)
    (uuid4 : String) (storeFault : Option PyExc) (now : String)
    (event : Event) (ctx : Context) : HandlerResult :=
  let table := tableEnv
  let source_ip := sourceIpOf event
  let user_agent := userAgentOf event
  let log0 : LogEvent :=
    .apiRequestReceived source_ip user_agent ctx.aws_request_id ctx.function_name table now
  let t := tryBody table jsonLoads uuid4 storeFault now event ctx
  match t.res with
  | .ok _ =>
    let logC : LogEvent := .apiRequestCompleted ctx.aws_request_id source_ip now
    { logs := log0 :: t.logs ++ [logC]
      putAttempts := t.putAttempts
      writes := t.writes
      outcome := .ok successResponse }
  | .error e =>
    let logE : LogEvent :=
      .apiRequestError (PyExc.typeName e) (PyExc.message e) ctx.aws_request_id source_ip table now
    { logs := log0 :: t.logs ++ [logE]
      putAttempts := t.putAttempts
      writes := t.writes
      outcome := .error e }

/-- The fixed default record written on the no-payload branch (source
lines 120-127), with the freshly generated id. -/
def defaultItem (default_id : String) : DDBItem :=
  [("year", .N "2012"), ("title", .S "The Amazing Spider-Man 2"), ("id", .S default_id)]

/-- The record written on the payload branch (source lines 87-90): the
three extracted fields after `str()` coercion. -/
def payloadItem (y t i : JValue) : DDBItem :=
  [("year", .N (pyStr y)), ("title", .S (pyStr t)), ("id", .S (pyStr i))]

section Lemmas

variable (tableEnv : Option String) (jsonLoads : String → Except PyExc JValue)
variable (uuid4 : String) (storeFault : Option PyExc) (now : String)
variable (event : Event) (ctx : Context)

lemma tryBody_payload_success (tbl s : String)
    (kvs : List (String × JValue)) (y t i : JValue)
    (hb : event.body = .str s) (hs : s ≠ "")
    (hp : jsonLoads s = .ok (.jobj kvs))
    (hy : dictGet kvs "year" = some y)
    (ht : dictGet kvs "title" = some t)
    (hi : dictGet kvs "id" = some i) :
    tryBody (some tbl) jsonLoads uuid4 none now event ctx =
      ⟨[.dataProcessingStart true false ctx.aws_request_id (sourceIpOf event) now,
        .dynamodbWriteSuccess (some tbl) (pyStr i) false ctx.aws_request_id
          (sourceIpOf event) now],
       [(some tbl, payloadItem y t i)], [(some tbl, payloadItem y t i)], .ok ()⟩ := by
  simp only [tryBody, hb]
  rw [if_neg hs]
  simp only [tryBody.payloadPath, hp, pySubscript, hy, ht, hi, put_item, payloadItem]

lemma tryBody_falsy_default (tbl : String)
    (hb : event.body = .pyNone ∨ event.body = .str "") :
    tryBody (some tbl) jsonLoads uuid4 none now event ctx =
      ⟨[.dataProcessingStart false true ctx.aws_request_id (sourceIpOf event) now,
        .dynamodbWriteSuccess (some tbl) uuid4 true ctx.aws_request_id
          (sourceIpOf event) now],
       [(some tbl, defaultItem uuid4)], [(some tbl, defaultItem uuid4)], .ok ()⟩ := by
  rcases hb with hb | hb <;>
    simp only [tryBody, hb, tryBody.defaultPath, put_item, defaultItem, if_pos]

lemma tryBody_falsy_missing_table
    (hb : event.body = .pyNone ∨ event.body = .str "") :
    tryBody none jsonLoads uuid4 storeFault now event ctx =
      ⟨[.dataProcessingStart false true ctx.aws_request_id (sourceIpOf event) now],
       [(none, defaultItem uuid4)], [], .error (.paramValidationError pvMsg)⟩ := by
  rcases hb with hb | hb <;>
    simp only [tryBody, hb, tryBody.defaultPath, put_item, defaultItem, if_pos]

lemma tryBody_absent_body (hb : event.body = .absent) :
    tryBody tableEnv jsonLoads uuid4 storeFault now event ctx =
      ⟨[], [], [], .error (.keyError "body")⟩ := by
  simp only [tryBody, hb]

lemma tryBody_attempts_le_one :
    (tryBody tableEnv jsonLoads uuid4 storeFault now event ctx).putAttempts.length ≤ 1 := by
  unfold tryBody tryBody.payloadPath tryBody.defaultPath put_item
  repeat' split
  all_goals simp

lemma tryBody_ok_one_write
    (h : (tryBody tableEnv jsonLoads uuid4 storeFault now event ctx).res = .ok ()) :
    (tryBody tableEnv jsonLoads uuid4 storeFault now event ctx).putAttempts.length = 1 ∧
    (tryBody tableEnv jsonLoads uuid4 storeFault now event ctx).writes.length = 1 := by
  revert h
  unfold tryBody tryBody.payloadPath tryBody.defaultPath put_item
  repeat' split
  all_goals intro h
  all_goals simp_all

end Lemmas

section PayloadErrorLemmas

variable (tableEnv : Option String) (jsonLoads : String → Except PyExc JValue)
variable (uuid4 : String) (storeFault : Option PyExc) (now : String)
variable (event : Event) (ctx : Context)

lemma tryBody_payload_no_year (s : String) (kvs : List (String × JValue))
    (hb : event.body = .str s) (hs : s ≠ "")
    (hp : jsonLoads s = .ok (.jobj kvs))
    (hy : dictGet kvs "year" = none) :
    tryBody tableEnv jsonLoads uuid4 storeFault now event ctx =
      ⟨[.dataProcessingStart true false ctx.aws_request_id (sourceIpOf event) now],
       [], [], .error (.keyError "year")⟩ := by
  simp only [tryBody, hb]
  rw [if_neg hs]
  simp only [tryBody.payloadPath, hp, pySubscript, hy]

lemma tryBody_payload_no_title (s : String) (kvs : List (String × JValue))
    (y : JValue) (hb : event.body = .str s) (hs : s ≠ "")
    (hp : jsonLoads s = .ok (.jobj kvs))
    (hy : dictGet kvs "year" = some y)
    (ht : dictGet kvs "title" = none) :
    tryBody tableEnv jsonLoads uuid4 storeFault now event ctx =
      ⟨[.dataProcessingStart true false ctx.aws_request_id (sourceIpOf event) now],
       [], [], .error (.keyError "title")⟩ := by
  simp only [tryBody, hb]
  rw [if_neg hs]
  simp only [tryBody.payloadPath, hp, pySubscript, hy, ht]

end PayloadErrorLemmas

/-- C1: for every invocation event whose body is a non-empty string that
parses as a JSON object containing the keys `year` (a number), `title` and
`id` (strings), the handler writes exactly the record with those values —
`year` as the string form of the number under the numeric attribute type —
to the configured store, and returns status 200 with the body
`\x7b"message": "Successfully inserted data!"\x7d`. -/
theorem payload_write_and_success
    (tbl s uuid4 now : String) (jsonLoads : String → Except PyExc JValue)
    (event : Event) (ctx : Context) (kvs : List (String × JValue))
    (n : Int) (ttl idv : String)
    (hb : event.body = .str s) (hs : s ≠ "")
    (hp : jsonLoads s = .ok (.jobj kvs))
    (hy : dictGet kvs "year" = some (.jint n))
    (ht : dictGet kvs "title" = some (.jstr ttl))
    (hi : dictGet kvs "id" = some (.jstr idv)) :
    (handler (some tbl) jsonLoads uuid4 none now event ctx).writes =
      [(some tbl, [("year", .N (toString n)), ("title", .S ttl), ("id", .S idv)])] ∧
    (handler (some tbl) jsonLoads uuid4 none now event ctx).outcome =
      .ok { statusCode := 200
            headers := [("Content-Type", "application/json")]
            body := "\x7b\"message\": \"Successfully inserted data!\"\x7d" } := by
  have htry := tryBody_payload_success jsonLoads uuid4 now event ctx tbl s kvs
    (.jint n) (.jstr ttl) (.jstr idv) hb hs hp hy ht hi
  simp only [handler, htry]
  refine ⟨?_, ?_⟩ <;> simp [payloadItem, pyStr, pyRepr, successResponse, jsonDumpsStrObj] <;> rfl

/-- Witness for C1 at the spec's example payload
`\x7b"year": 1999, "title": "The Matrix", "id": "m1"\x7d`. -/
theorem payload_write_and_success_witness :
    (handler (some "Movies")
        (fun _ => Except.ok (JValue.jobj
          [("year", JValue.jint 1999), ("title", JValue.jstr "The Matrix"),
           ("id", JValue.jstr "m1")]))
        "u0" none "T0" ⟨none, .str "payload"⟩ ⟨"req-1", "fn"⟩).writes =
      [(some "Movies",
        [("year", .N "1999"), ("title", .S "The Matrix"), ("id", .S "m1")])] ∧
    (handler (some "Movies")
        (fun _ => Except.ok (JValue.jobj
          [("year", JValue.jint 1999), ("title", JValue.jstr "The Matrix"),
           ("id", JValue.jstr "m1")]))
        "u0" none "T0" ⟨none, .str "payload"⟩ ⟨"req-1", "fn"⟩).outcome =
      .ok { statusCode := 200
            headers := [("Content-Type", "application/json")]
            body := "\x7b\"message\": \"Successfully inserted data!\"\x7d" } :=
  payload_write_and_success "Movies" "payload" "u0" "T0"
    (fun _ => Except.ok (JValue.jobj
      [("year", JValue.jint 1999), ("title", JValue.jstr "The Matrix"),
       ("id", JValue.jstr "m1")]))
    ⟨none, .str "payload"⟩ ⟨"req-1", "fn"⟩ _ 1999 "The Matrix" "m1"
    rfl (by decide) rfl rfl rfl rfl

/-- C2 counterexample: an event whose `body` key is entirely absent from
the event mapping is an event "whose body is absent", yet the handler does
not write the default record — it raises `KeyError` at `event["body"]`,
writes nothing, and returns no 200 response. -/
theorem absent_body_not_default_cex :
    (handler (some "Movies")
        (fun _ => Except.error (PyExc.jsonDecodeError "Expecting value: line 1 column 1 (char 0)"))
        "u0" none "T0" ⟨none, .absent⟩ ⟨"req-1", "fn"⟩).writes = [] ∧
    (handler (some "Movies")
        (fun _ => Except.error (PyExc.jsonDecodeError "Expecting value: line 1 column 1 (char 0)"))
        "u0" none "T0" ⟨none, .absent⟩ ⟨"req-1", "fn"⟩).outcome =
      Except.error (PyExc.keyError "body") :=
  ⟨rfl, rfl⟩

/-- C2 amended: for every invocation event whose `body` key is present but
falsy (`None` or the empty string), the handler writes the fixed default
record with year "2012", title "The Amazing Spider-Man 2" and the freshly
generated id, and returns status 200 with the success message; an event
whose `body` key is absent instead raises `KeyError`. -/
theorem falsy_body_default_record
    (tbl uuid4 now : String) (jsonLoads : String → Except PyExc JValue)
    (event : Event) (ctx : Context)
    (hb : event.body = .pyNone ∨ event.body = .str "") :
    (handler (some tbl) jsonLoads uuid4 none now event ctx).writes =
      [(some tbl,
        [("year", .N "2012"), ("title", .S "The Amazing Spider-Man 2"),
         ("id", .S uuid4)])] ∧
    (handler (some tbl) jsonLoads uuid4 none now event ctx).outcome =
      .ok { statusCode := 200
            headers := [("Content-Type", "application/json")]
            body := "\x7b\"message\": \"Successfully inserted data!\"\x7d" } := by
  have htry := tryBody_falsy_default jsonLoads uuid4 now event ctx tbl hb
  simp only [handler, htry]
  refine ⟨?_, ?_⟩ <;> simp [defaultItem, successResponse, jsonDumpsStrObj] <;> rfl

/-- Witness for the amended C2 at a concrete event with `body: null`. -/
theorem falsy_body_default_record_witness :
    (handler (some "Movies")
        (fun _ => Except.error (PyExc.jsonDecodeError "Expecting value: line 1 column 1 (char 0)"))
        "u0" none "T0" ⟨none, .pyNone⟩ ⟨"req-1", "fn"⟩).writes =
      [(some "Movies",
        [("year", .N "2012"), ("title", .S "The Amazing Spider-Man 2"),
         ("id", .S "u0")])] ∧
    (handler (some "Movies")
        (fun _ => Except.error (PyExc.jsonDecodeError "Expecting value: line 1 column 1 (char 0)"))
        "u0" none "T0" ⟨none, .pyNone⟩ ⟨"req-1", "fn"⟩).outcome =
      .ok { statusCode := 200
            headers := [("Content-Type", "application/json")]
            body := "\x7b\"message\": \"Successfully inserted data!\"\x7d" } :=
  falsy_body_default_record "Movies" "u0" "T0"
    (fun _ => Except.error (PyExc.jsonDecodeError "Expecting value: line 1 column 1 (char 0)"))
    ⟨none, .pyNone⟩ ⟨"req-1", "fn"⟩ (Or.inl rfl)

/-- C3 counterexample: with the store name missing from the environment
the handler does not fail fast before attempting a write — it proceeds all
the way to the `put_item` call (one attempt is recorded, with table
`None`) and only that call raises, as a `ParamValidationError`. -/
theorem missing_table_attempts_write_cex :
    (handler none
        (fun _ => Except.error (PyExc.jsonDecodeError "Expecting value: line 1 column 1 (char 0)"))
        "u0" none "T0" ⟨none, .pyNone⟩ ⟨"req-1", "fn"⟩).putAttempts =
      [(none,
        [("year", .N "2012"), ("title", .S "The Amazing Spider-Man 2"),
         ("id", .S "u0")])] ∧
    (handler none
        (fun _ => Except.error (PyExc.jsonDecodeError "Expecting value: line 1 column 1 (char 0)"))
        "u0" none "T0" ⟨none, .pyNone⟩ ⟨"req-1", "fn"⟩).outcome =
      Except.error (PyExc.paramValidationError pvMsg) :=
  ⟨rfl, rfl⟩

/-- C3 amended: when the store name is missing from the environment the
handler does not fail fast; it proceeds to the single `put_item` call,
which raises `ParamValidationError` client-side (so no record is ever
stored), and the error is logged as `api_request_error` and re-raised. -/
theorem missing_table_error_at_put
    (jsonLoads : String → Except PyExc JValue) (uuid4 : String)
    (storeFault : Option PyExc) (now : String) (event : Event) (ctx : Context)
    (hb : event.body = .pyNone ∨ event.body = .str "") :
    (handler none jsonLoads uuid4 storeFault now event ctx).putAttempts =
      [(none,
        [("year", .N "2012"), ("title", .S "The Amazing Spider-Man 2"),
         ("id", .S uuid4)])] ∧
    (handler none jsonLoads uuid4 storeFault now event ctx).writes = [] ∧
    (handler none jsonLoads uuid4 storeFault now event ctx).outcome =
      .error (.paramValidationError pvMsg) ∧
    (handler none jsonLoads uuid4 storeFault now event ctx).logs.getLast? =
      some (.apiRequestError "ParamValidationError" pvMsg ctx.aws_request_id
        (sourceIpOf event) none now) := by
  have htry := tryBody_falsy_missing_table jsonLoads uuid4 storeFault now event ctx hb
  simp only [handler, htry]
  refine ⟨?_, ?_, ?_, ?_⟩ <;> simp [defaultItem, PyExc.typeName, PyExc.message, List.getLast?]

/-- Witness for the amended C3 at a concrete event with `body: null`. -/
theorem missing_table_error_at_put_witness :
    (handler none
        (fun _ => Except.error (PyExc.jsonDecodeError "Expecting value: line 1 column 1 (char 0)"))
        "u0" none "T0" ⟨none, .pyNone⟩ ⟨"req-1", "fn"⟩).putAttempts =
      [(none,
        [("year", .N "2012"), ("title", .S "The Amazing Spider-Man 2"),
         ("id", .S "u0")])] ∧
    (handler none
        (fun _ => Except.error (PyExc.jsonDecodeError "Expecting value: line 1 column 1 (char 0)"))
        "u0" none "T0" ⟨none, .pyNone⟩ ⟨"req-1", "fn"⟩).writes = [] ∧
    (handler none
        (fun _ => Except.error (PyExc.jsonDecodeError "Expecting value: line 1 column 1 (char 0)"))
        "u0" none "T0" ⟨none, .pyNone⟩ ⟨"req-1", "fn"⟩).outcome =
      .error (.paramValidationError pvMsg) ∧
    (handler none
        (fun _ => Except.error (PyExc.jsonDecodeError "Expecting value: line 1 column 1 (char 0)"))
        "u0" none "T0" ⟨none, .pyNone⟩ ⟨"req-1", "fn"⟩).logs.getLast? =
      some (.apiRequestError "ParamValidationError" pvMsg "req-1" "unknown" none "T0") :=
  missing_table_error_at_put
    (fun _ => Except.error (PyExc.jsonDecodeError "Expecting value: line 1 column 1 (char 0)"))
    "u0" none "T0" ⟨none, .pyNone⟩ ⟨"req-1", "fn"⟩ (Or.inl rfl)

/-- C9: for every invocation event whose `body` key is entirely absent
from the event mapping, the handler raises `KeyError` (caught, logged as
`api_request_error` with error type `KeyError` and message the repr of the
missing key, and re-raised), no `put_item` call is made and nothing is
written to the store. -/
theorem absent_body_key_error
    (tableEnv : Option String) (jsonLoads : String → Except PyExc JValue)
    (uuid4 : String) (storeFault : Option PyExc) (now : String)
    (event : Event) (ctx : Context) (hb : event.body = .absent) :
    (handler tableEnv jsonLoads uuid4 storeFault now event ctx).outcome =
      .error (.keyError "body") ∧
    (handler tableEnv jsonLoads uuid4 storeFault now event ctx).putAttempts = [] ∧
    (handler tableEnv jsonLoads uuid4 storeFault now event ctx).writes = [] ∧
    (handler tableEnv jsonLoads uuid4 storeFault now event ctx).logs.getLast? =
      some (.apiRequestError "KeyError" "\x27body\x27" ctx.aws_request_id
        (sourceIpOf event) tableEnv now) := by
  have htry := tryBody_absent_body tableEnv jsonLoads uuid4 storeFault now event ctx hb
  simp only [handler, htry]
  refine ⟨?_, ?_, ?_, ?_⟩ <;> simp [PyExc.typeName, PyExc.message, List.getLast?]

/-- Witness for C9 at a concrete event lacking the `body` key. -/
theorem absent_body_key_error_witness :
    (handler (some "Movies")
        (fun _ => Except.error (PyExc.jsonDecodeError "Expecting value: line 1 column 1 (char 0)"))
        "u0" none "T0" ⟨none, .absent⟩ ⟨"req-1", "fn"⟩).outcome =
      .error (.keyError "body") ∧
    (handler (some "Movies")
        (fun _ => Except.error (PyExc.jsonDecodeError "Expecting value: line 1 column 1 (char 0)"))
        "u0" none "T0" ⟨none, .absent⟩ ⟨"req-1", "fn"⟩).putAttempts = [] ∧
    (handler (some "Movies")
        (fun _ => Except.error (PyExc.jsonDecodeError "Expecting value: line 1 column 1 (char 0)"))
        "u0" none "T0" ⟨none, .absent⟩ ⟨"req-1", "fn"⟩).writes = [] ∧
    (handler (some "Movies")
        (fun _ => Except.error (PyExc.jsonDecodeError "Expecting value: line 1 column 1 (char 0)"))
        "u0" none "T0" ⟨none, .absent⟩ ⟨"req-1", "fn"⟩).logs.getLast? =
      some (.apiRequestError "KeyError" "\x27body\x27" "req-1" "unknown" (some "Movies") "T0") :=
  absent_body_key_error (some "Movies")
    (fun _ => Except.error (PyExc.jsonDecodeError "Expecting value: line 1 column 1 (char 0)"))
    "u0" none "T0" ⟨none, .absent⟩ ⟨"req-1", "fn"⟩ rfl

lemma getLast?_cons_append_singleton {α : Type} (a b : α) (l : List α) :
    (a :: l ++ [b]).getLast? = some b := by
  simpa using List.getLast?_append_cons (a :: l) b []

/-- C4: for every invocation in which an exception is raised (parsing,
field access or the store write), the final log event is a structured
`api_request_error` record carrying the error type, error message, request
id, source IP, store name and timestamp, and the very same exception is
re-raised to the caller; no retry is performed (at most one `put_item`
attempt). -/
theorem error_logged_then_reraised
    (tableEnv : Option String) (jsonLoads : String → Except PyExc JValue)
    (uuid4 : String) (storeFault : Option PyExc) (now : String)
    (event : Event) (ctx : Context) (e : PyExc)
    (h : (handler tableEnv jsonLoads uuid4 storeFault now event ctx).outcome = .error e) :
    (handler tableEnv jsonLoads uuid4 storeFault now event ctx).logs.getLast? =
      some (.apiRequestError (PyExc.typeName e) (PyExc.message e) ctx.aws_request_id
        (sourceIpOf event) tableEnv now) ∧
    (handler tableEnv jsonLoads uuid4 storeFault now event ctx).putAttempts.length ≤ 1 := by
  cases hres : (tryBody tableEnv jsonLoads uuid4 storeFault now event ctx).res with
  | ok a =>
    simp only [handler, hres] at h
    exact absurd h (by simp)
  | error e2 =>
    simp only [handler, hres] at h
    simp only [Except.error.injEq] at h
    subst h
    refine ⟨?_, ?_⟩
    · simp only [handler, hres]
      exact getLast?_cons_append_singleton _ _ _
    · simp only [handler, hres]
      exact tryBody_attempts_le_one tableEnv jsonLoads uuid4 storeFault now event ctx

/-- Witness for C4 at an event whose body key is missing, which raises
`KeyError` inside the try block. -/
theorem error_logged_then_reraised_witness :
    (handler (some "Movies")
        (fun _ => Except.error (PyExc.jsonDecodeError "Expecting value: line 1 column 1 (char 0)"))
        "u0" none "T0" ⟨none, .absent⟩ ⟨"req-1", "fn"⟩).logs.getLast? =
      some (.apiRequestError (PyExc.typeName (.keyError "body"))
        (PyExc.message (.keyError "body")) "req-1" (sourceIpOf ⟨none, .absent⟩)
        (some "Movies") "T0") ∧
    (handler (some "Movies")
        (fun _ => Except.error (PyExc.jsonDecodeError "Expecting value: line 1 column 1 (char 0)"))
        "u0" none "T0" ⟨none, .absent⟩ ⟨"req-1", "fn"⟩).putAttempts.length ≤ 1 :=
  error_logged_then_reraised (some "Movies")
    (fun _ => Except.error (PyExc.jsonDecodeError "Expecting value: line 1 column 1 (char 0)"))
    "u0" none "T0" ⟨none, .absent⟩ ⟨"req-1", "fn"⟩ (.keyError "body") rfl

/-- C5: for every invocation event whose body is a non-empty string
parsing to a JSON object that lacks the required field `title`, the
handler propagates an unhandled `KeyError` (for `year` or for `title`,
depending on which extraction fails first) and does not return a 200
response. -/
theorem missing_title_propagates_error
    (tableEnv : Option String) (s uuid4 now : String)
    (jsonLoads : String → Except PyExc JValue) (storeFault : Option PyExc)
    (event : Event) (ctx : Context) (kvs : List (String × JValue))
    (hb : event.body = .str s) (hs : s ≠ "")
    (hp : jsonLoads s = .ok (.jobj kvs))
    (ht : dictGet kvs "title" = none) :
    ∃ k, (handler tableEnv jsonLoads uuid4 storeFault now event ctx).outcome =
      .error (.keyError k) := by
  cases hy : dictGet kvs "year" with
  | none =>
    have htry := tryBody_payload_no_year tableEnv jsonLoads uuid4 storeFault now
      event ctx s kvs hb hs hp hy
    exact ⟨"year", by simp [handler, htry]⟩
  | some y =>
    have htry := tryBody_payload_no_title tableEnv jsonLoads uuid4 storeFault now
      event ctx s kvs y hb hs hp hy ht
    exact ⟨"title", by simp [handler, htry]⟩

/-- Witness for C5 at the payload `\x7b"year": 1999, "id": "m1"\x7d`. -/
theorem missing_title_propagates_error_witness :
    ∃ k, (handler (some "Movies")
        (fun _ => Except.ok (JValue.jobj [("year", JValue.jint 1999), ("id", JValue.jstr "m1")]))
        "u0" none "T0" ⟨none, .str "payload"⟩ ⟨"req-1", "fn"⟩).outcome =
      .error (.keyError k) :=
  missing_title_propagates_error (some "Movies") "payload" "u0" "T0"
    (fun _ => Except.ok (JValue.jobj [("year", JValue.jint 1999), ("id", JValue.jstr "m1")]))
    none ⟨none, .str "payload"⟩ ⟨"req-1", "fn"⟩ _ rfl (by decide) rfl rfl

/-- C6: every invocation makes at most one `put_item` attempt against the
store, and every invocation that returns a 200 response has caused exactly
one successful write to the store. -/
theorem at_most_one_attempt_and_one_write
    (tableEnv : Option String) (jsonLoads : String → Except PyExc JValue)
    (uuid4 : String) (storeFault : Option PyExc) (now : String)
    (event : Event) (ctx : Context) :
    (handler tableEnv jsonLoads uuid4 storeFault now event ctx).putAttempts.length ≤ 1 ∧
    (∀ resp : HttpResponse,
      (handler tableEnv jsonLoads uuid4 storeFault now event ctx).outcome = .ok resp →
      (handler tableEnv jsonLoads uuid4 storeFault now event ctx).writes.length = 1) := by
  constructor
  · cases hres : (tryBody tableEnv jsonLoads uuid4 storeFault now event ctx).res with
    | ok a =>
      simp only [handler, hres]
      exact tryBody_attempts_le_one tableEnv jsonLoads uuid4 storeFault now event ctx
    | error e =>
      simp only [handler, hres]
      exact tryBody_attempts_le_one tableEnv jsonLoads uuid4 storeFault now event ctx
  · intro resp h
    cases hres : (tryBody tableEnv jsonLoads uuid4 storeFault now event ctx).res with
    | ok a =>
      cases a
      simp only [handler, hres]
      exact (tryBody_ok_one_write tableEnv jsonLoads uuid4 storeFault now event ctx hres).2
    | error e =>
      simp only [handler, hres] at h
      exact absurd h (by simp)

/-- Witness for C6 at a concrete successful default-path invocation. -/
theorem at_most_one_attempt_and_one_write_witness :
    (handler (some "Movies")
        (fun _ => Except.error (PyExc.jsonDecodeError "Expecting value: line 1 column 1 (char 0)"))
        "u0" none "T0" ⟨none, .pyNone⟩ ⟨"req-1", "fn"⟩).putAttempts.length ≤ 1 ∧
    (handler (some "Movies")
        (fun _ => Except.error (PyExc.jsonDecodeError "Expecting value: line 1 column 1 (char 0)"))
        "u0" none "T0" ⟨none, .pyNone⟩ ⟨"req-1", "fn"⟩).writes.length = 1 :=
  ⟨(at_most_one_attempt_and_one_write (some "Movies")
      (fun _ => Except.error (PyExc.jsonDecodeError "Expecting value: line 1 column 1 (char 0)"))
      "u0" none "T0" ⟨none, .pyNone⟩ ⟨"req-1", "fn"⟩).1,
   (at_most_one_attempt_and_one_write (some "Movies")
      (fun _ => Except.error (PyExc.jsonDecodeError "Expecting value: line 1 column 1 (char 0)"))
      "u0" none "T0" ⟨none, .pyNone⟩ ⟨"req-1", "fn"⟩).2 successResponse rfl⟩

/-- C7: every successful invocation returns status code 200, the header
`Content-Type: application/json`, and a body that is the JSON
serialization of the object with exactly the one key `message` mapped to
"Successfully inserted data!". -/
theorem success_response_shape
    (tableEnv : Option String) (jsonLoads : String → Except PyExc JValue)
    (uuid4 : String) (storeFault : Option PyExc) (now : String)
    (event : Event) (ctx : Context) (resp : HttpResponse)
    (h : (handler tableEnv jsonLoads uuid4 storeFault now event ctx).outcome = .ok resp) :
    resp.statusCode = 200 ∧
    resp.headers = [("Content-Type", "application/json")] ∧
    resp.body = jsonDumpsStrObj [("message", "Successfully inserted data!")] ∧
    resp.body = "\x7b\"message\": \"Successfully inserted data!\"\x7d" := by
  cases hres : (tryBody tableEnv jsonLoads uuid4 storeFault now event ctx).res with
  | error e =>
    simp only [handler, hres] at h
    exact absurd h (by simp)
  | ok a =>
    simp only [handler, hres] at h
    simp only [Except.ok.injEq] at h
    subst h
    exact ⟨rfl, rfl, rfl, rfl⟩

/-- Witness for C7 at a concrete successful default-path invocation. -/
theorem success_response_shape_witness :
    successResponse.statusCode = 200 ∧
    successResponse.headers = [("Content-Type", "application/json")] ∧
    successResponse.body = jsonDumpsStrObj [("message", "Successfully inserted data!")] ∧
    successResponse.body = "\x7b\"message\": \"Successfully inserted data!\"\x7d" :=
  success_response_shape (some "Movies")
    (fun _ => Except.error (PyExc.jsonDecodeError "Expecting value: line 1 column 1 (char 0)"))
    "u0" none "T0" ⟨none, .pyNone⟩ ⟨"req-1", "fn"⟩ successResponse rfl

/-- C8: for two sequential invocations each with a falsy body, given that
the uuid generator returns distinct fresh tokens for the two invocations,
each invocation writes exactly the default record carrying its own
generated id, and the two written records are distinct. -/
theorem sequential_default_invocations_distinct_ids
    (tbl u1 u2 now1 now2 : String)
    (jl1 jl2 : String → Except PyExc JValue)
    (ev1 ev2 : Event) (ctx1 ctx2 : Context)
    (hu : u1 ≠ u2)
    (hb1 : ev1.body = .pyNone ∨ ev1.body = .str "")
    (hb2 : ev2.body = .pyNone ∨ ev2.body = .str "") :
    (handler (some tbl) jl1 u1 none now1 ev1 ctx1).writes =
      [(some tbl, defaultItem u1)] ∧
    (handler (some tbl) jl2 u2 none now2 ev2 ctx2).writes =
      [(some tbl, defaultItem u2)] ∧
    defaultItem u1 ≠ defaultItem u2 := by
  refine ⟨?_, ?_, ?_⟩
  · have htry := tryBody_falsy_default jl1 u1 now1 ev1 ctx1 tbl hb1
    simp [handler, htry]
  · have htry := tryBody_falsy_default jl2 u2 now2 ev2 ctx2 tbl hb2
    simp [handler, htry]
  · simp [defaultItem, hu]

/-- Witness for C8 with two concrete invocations and distinct uuids. -/
theorem sequential_default_invocations_distinct_ids_witness :
    (handler (some "Movies")
        (fun _ => Except.error (PyExc.jsonDecodeError "Expecting value: line 1 column 1 (char 0)"))
        "11111111-1111-1111-1111-111111111111" none "T1" ⟨none, .pyNone⟩ ⟨"req-1", "fn"⟩).writes =
      [(some "Movies", defaultItem "11111111-1111-1111-1111-111111111111")] ∧
    (handler (some "Movies")
        (fun _ => Except.error (PyExc.jsonDecodeError "Expecting value: line 1 column 1 (char 0)"))
        "22222222-2222-2222-2222-222222222222" none "T2" ⟨none, .str ""⟩ ⟨"req-2", "fn"⟩).writes =
      [(some "Movies", defaultItem "22222222-2222-2222-2222-222222222222")] ∧
    defaultItem "11111111-1111-1111-1111-111111111111" ≠
      defaultItem "22222222-2222-2222-2222-222222222222" :=
  sequential_default_invocations_distinct_ids "Movies"
    "11111111-1111-1111-1111-111111111111" "22222222-2222-2222-2222-222222222222"
    "T1" "T2"
    (fun _ => Except.error (PyExc.jsonDecodeError "Expecting value: line 1 column 1 (char 0)"))
    (fun _ => Except.error (PyExc.jsonDecodeError "Expecting value: line 1 column 1 (char 0)"))
    ⟨none, .pyNone⟩ ⟨none, .str ""⟩ ⟨"req-1", "fn"⟩ ⟨"req-2", "fn"⟩
    (by decide) (Or.inl rfl) (Or.inr rfl)

/-- C10: for every payload object in which `year`, `title` and `id` are
all present, the payload-path extraction never fails on their types: each
of the three values is stored as its Python string form regardless of its
JSON type, and the invocation succeeds. -/
theorem payload_fields_any_type_coerced
    (tbl s uuid4 now : String) (jsonLoads : String → Except PyExc JValue)
    (event : Event) (ctx : Context) (kvs : List (String × JValue)) (y t i : JValue)
    (hb : event.body = .str s) (hs : s ≠ "")
    (hp : jsonLoads s = .ok (.jobj kvs))
    (hy : dictGet kvs "year" = some y)
    (ht : dictGet kvs "title" = some t)
    (hi : dictGet kvs "id" = some i) :
    (handler (some tbl) jsonLoads uuid4 none now event ctx).writes =
      [(some tbl,
        [("year", .N (pyStr y)), ("title", .S (pyStr t)), ("id", .S (pyStr i))])] ∧
    (handler (some tbl) jsonLoads uuid4 none now event ctx).outcome =
      .ok successResponse := by
  have htry := tryBody_payload_success jsonLoads uuid4 now event ctx tbl s kvs
    y t i hb hs hp hy ht hi
  simp [handler, htry, payloadItem]

/-- Witness for C10: a boolean `year`, a numeric `title` and an array
`id` are all coerced to their Python string forms. -/
theorem payload_fields_any_type_coerced_witness :
    (handler (some "Movies")
        (fun _ => Except.ok (JValue.jobj
          [("year", JValue.jbool true), ("title", JValue.jint 123),
           ("id", JValue.jarr [JValue.jint 1, JValue.jint 2])]))
        "u0" none "T0" ⟨none, .str "payload"⟩ ⟨"req-1", "fn"⟩).writes =
      [(some "Movies",
        [("year", .N "True"), ("title", .S "123"), ("id", .S "[1, 2]")])] ∧
    (handler (some "Movies")
        (fun _ => Except.ok (JValue.jobj
          [("year", JValue.jbool true), ("title", JValue.jint 123),
           ("id", JValue.jarr [JValue.jint 1, JValue.jint 2])]))
        "u0" none "T0" ⟨none, .str "payload"⟩ ⟨"req-1", "fn"⟩).outcome =
      .ok successResponse := by
  have h := payload_fields_any_type_coerced "Movies" "payload" "u0" "T0"
    (fun _ => Except.ok (JValue.jobj
      [("year", JValue.jbool true), ("title", JValue.jint 123),
       ("id", JValue.jarr [JValue.jint 1, JValue.jint 2])]))
    ⟨none, .str "payload"⟩ ⟨"req-1", "fn"⟩ _
    (JValue.jbool true) (JValue.jint 123) (JValue.jarr [JValue.jint 1, JValue.jint 2])
    rfl (by decide) rfl rfl rfl rfl
  simpa [pyStr, pyRepr, pyReprList] using h

end ApigwHandler
